import Mathlib

/-!
Shallow embedding of the bookstore backend (`src/server.js`).

JS numbers are modelled as exact rationals (`ℚ`) where fractional values can
occur (prices) and as `ℤ` where the data holds integers (ids, stock,
quantities).  A JS value that can be `NaN` is modelled as `Option ℤ` with
`none` standing for `NaN`.  Strings are Lean `String`s; `toLowerCase` is
modelled by mapping `Char.toLower`, and `localeCompare` by the string order.
-/

namespace Bookstore

/-! ### JS string and number helpers -/

/-- `s.toLowerCase()` -/
def lower (s : String) : String := s.map Char.toLower

/-- `s.includes(sub)` — substring containment. -/
def jsIncludes (s sub : String) : Bool :=
  s.toList.tails.any (fun t => sub.toList.isPrefixOf t)

/-- Accumulate a leading run of decimal digits; `none` when no digit was seen. -/
def parseDecNat : List Char → Nat → Bool → Option Nat
  | [], acc, seen => if seen then some acc else none
  | c :: rest, acc, seen =>
      if c.isDigit then parseDecNat rest (acc * 10 + (c.toNat - 48)) true
      else if seen then some acc else none

/-- Hex digit value, if any. -/
def hexDigit (c : Char) : Option Nat :=
  if c.isDigit then some (c.toNat - 48)
  else if 'a' ≤ c ∧ c ≤ 'f' then some (c.toNat - 87)
  else if 'A' ≤ c ∧ c ≤ 'F' then some (c.toNat - 55)
  else none

/-- Accumulate a leading run of hex digits; `none` when no digit was seen. -/
def parseHexNat : List Char → Nat → Bool → Option Nat
  | [], acc, seen => if seen then some acc else none
  | c :: rest, acc, seen =>
      match hexDigit c with
      | some d => parseHexNat rest (acc * 16 + d) true
      | none => if seen then some acc else none

/-- JS `parseInt(s)` with no radix argument: skip leading whitespace, optional
sign, `0x`/`0X` hex prefix, then the longest run of digits; `none` models the
`NaN` result when no digit is found. -/
def parseIntJs (s : String) : Option Int :=
  let cs := s.toList.dropWhile Char.isWhitespace
  let signed : Int × List Char :=
    match cs with
    | '-' :: rest => (-1, rest)
    | '+' :: rest => (1, rest)
    | _ => (1, cs)
  let body : Option Nat :=
    match signed.2 with
    | '0' :: x :: rest =>
        if x = 'x' ∨ x = 'X' then parseHexNat rest 0 false
        else parseDecNat signed.2 0 false
    | _ => parseDecNat signed.2 0 false
  body.map (fun n => signed.1 * (n : Int))

/-- `Array.prototype.slice` index resolution (`ToIntegerOrInfinity` + clamp);
`none` (NaN) resolves to `0`, negative indices count from the end. -/
def jsIndex (len : Nat) (v : Option Int) : Nat :=
  match v with
  | none => 0
  | some i => if i < 0 then ((len : Int) + i).toNat else min i.toNat len

/-- `l.slice(s, e)` with possibly-NaN bounds. -/
def jsSlice {α : Type} (l : List α) (s e : Option Int) : List α :=
  (l.take (jsIndex l.length e)).drop (jsIndex l.length s)

/-! ### Data model -/

/-- One record of the `products` collection (`data/books.json`).  Fields the
code never branches on (description, tags, specifications, featured) are
omitted; `rating : ℚ` with `0` standing for JS `null` (which coerces to `0`
in the numeric sort), timestamps are abstract `Nat` instants. -/
structure Product where
  id : Int
  title : String
  author : String
  isbn : Option String := none
  category : String := "General"
  price : ℚ
  discountPrice : Option ℚ := none
  imageUrl : String := ""
  stock : Int
  isActive : Bool := true
  rating : ℚ := 0
  createdAt : Nat := 0
  updatedAt : Nat := 0
  createdBy : Int := 0
deriving DecidableEq

/-! ### Public catalog query — `GET /api/products` (server.js:379-424) -/

/-- `products.filter((p) => p.isActive === true)` -/
def filterActive (ps : List Product) : List Product :=
  ps.filter (fun p => p.isActive)

/-- `if (req.query.category) products = products.filter((p) =>
p.category.toLowerCase() === req.query.category.toLowerCase())`
(an empty string is falsy, so it applies no filter). -/
def filterCategory (category? : Option String) (ps : List Product) : List Product :=
  match category? with
  | some c => if c ≠ "" then ps.filter (fun p => lower p.category == lower c) else ps
  | none => ps

/-- `if (req.query.search) ...` — case-insensitive substring match on title
or author. -/
def filterSearch (search? : Option String) (ps : List Product) : List Product :=
  match search? with
  | some s =>
      if s ≠ "" then
        ps.filter (fun p =>
          jsIncludes (lower p.title) (lower s) || jsIncludes (lower p.author) (lower s))
      else ps
  | none => ps

def priceAscLe (a b : Product) : Bool := decide (a.price ≤ b.price)
def priceDescLe (a b : Product) : Bool := decide (b.price ≤ a.price)
def titleAscLe (a b : Product) : Bool := decide (a.title ≤ b.title)
def titleDescLe (a b : Product) : Bool := decide (b.title ≤ a.title)

/-- The `switch (req.query.sort)` comparator; `none` for an unrecognized sort
key (prior ordering is left untouched).  A stable sort under comparator `c`
puts `a` before `b` exactly when `c(a,b) ≤ 0`, i.e. `le a b`. -/
def publicSortLe (s : String) : Option (Product → Product → Bool) :=
  if s = "price_asc" then some priceAscLe
  else if s = "price_desc" then some priceDescLe
  else if s = "title_asc" then some titleAscLe
  else if s = "title_desc" then some titleDescLe
  else none

def publicSort (sort? : Option String) (ps : List Product) : List Product :=
  match sort? with
  | some s =>
      match publicSortLe s with
      | some le => ps.mergeSort le
      | none => ps
  | none => ps

def publicFiltered (products : List Product) (category? search? : Option String) :
    List Product :=
  filterSearch search? (filterCategory category? (filterActive products))

structure PublicResult where
  products : List Product
  total : Nat
deriving DecidableEq

/-- `GET /api/products`: filter to active, then category, search, sort. -/
def queryPublic (products : List Product) (category? search? sort? : Option String) :
    PublicResult :=
  let ps := publicSort sort? (publicFiltered products category? search?)
  { products := ps, total := ps.length }

/-! ### Structural lemmas for the public pipeline -/

theorem publicSort_perm (sort? : Option String) (l : List Product) :
    (publicSort sort? l).Perm l := by
  unfold publicSort
  cases sort? with
  | none => exact List.Perm.refl _
  | some s =>
      cases h : publicSortLe s with
      | none => simp only [h]; exact List.Perm.refl _
      | some le => simp only [h]; exact List.mergeSort_perm l le

theorem filterCategory_sublist (category? : Option String) (l : List Product) :
    (filterCategory category? l).Sublist l := by
  unfold filterCategory
  cases category? with
  | none => exact List.Sublist.refl _
  | some c =>
      by_cases hc : c ≠ "" <;> simp [hc, List.filter_sublist]

theorem filterSearch_sublist (search? : Option String) (l : List Product) :
    (filterSearch search? l).Sublist l := by
  unfold filterSearch
  cases search? with
  | none => exact List.Sublist.refl _
  | some s =>
      by_cases hs : s ≠ "" <;> simp [hs, List.filter_sublist]

theorem publicFiltered_sublist_filterActive
    (products : List Product) (category? search? : Option String) :
    (publicFiltered products category? search?).Sublist (filterActive products) :=
  (filterSearch_sublist search? _).trans (filterCategory_sublist category? _)

/-- C1: every product returned by the public catalog query has
`isActive = true`, for every combination of category, search and sort. -/
theorem C1_queryPublic_only_active
    (products : List Product) (category? search? sort? : Option String) :
    ∀ p ∈ (queryPublic products category? search? sort?).products, p.isActive = true := by
  intro p hp
  have h1 : p ∈ publicFiltered products category? search? :=
    (publicSort_perm sort? _).subset hp
  have h2 : p ∈ filterActive products :=
    (publicFiltered_sublist_filterActive products category? search?).subset h1
  simpa [filterActive] using (List.mem_filter.mp h2).2

def sampleActive : Product :=
  { id := 1, title := "Clean Code", author := "Martin", price := 30, stock := 5 }

def sampleInactive : Product :=
  { id := 2, title := "Old Book", author := "Nobody", price := 10, stock := 3,
    isActive := false }

theorem C1_queryPublic_only_active_witness : sampleActive.isActive = true :=
  C1_queryPublic_only_active [sampleActive, sampleInactive] none none none
    sampleActive (by decide)

/-! ### Cart engine — `POST /api/cart` (server.js:609-679) -/

/-- A request `productId` is an arbitrary JSON value; the data's stored ids
are numbers.  JS strict equality `===` never equates a number with a
string. -/
inductive PId
  | num (n : Int)
  | str (s : String)
deriving DecidableEq

/-- JS `===` on the two value shapes. -/
def pidEq : PId → PId → Bool
  | .num a, .num b => a == b
  | .str a, .str b => a == b
  | _, _ => false

/-- JS truthiness of a `productId` value (`0` and `""` are falsy). -/
def truthy : PId → Bool
  | .num n => n != 0
  | .str s => s != ""

structure CartItem where
  productId : PId
  quantity : Int
  title : String
  author : String
  price : ℚ
  imageUrl : String
  addedAt : Nat
deriving DecidableEq

structure Cart where
  items : List CartItem
  total : ℚ
  totalItems : Int
deriving DecidableEq

def emptyCart : Cart := { items := [], total := 0, totalItems := 0 }

/-- `cart.items.reduce((sum, item) => sum + item.price * item.quantity, 0)` -/
def cartTotal (items : List CartItem) : ℚ :=
  (items.map (fun it => it.price * (it.quantity : ℚ))).sum

/-- `cart.items.reduce((sum, item) => sum + item.quantity, 0)` -/
def cartTotalItems (items : List CartItem) : Int :=
  (items.map (fun it => it.quantity)).sum

/-- `product.discountPrice || product.price` — a discount of `0` (or `null`)
is falsy, so the list price is used. -/
def snapshotPrice (p : Product) : ℚ :=
  match p.discountPrice with
  | some d => if d ≠ 0 then d else p.price
  | none => p.price

/-- `findIndex` + in-place quantity increment: bump the quantity of the first
item whose `productId` strictly equals `pid`. -/
def addQtyFirst (pid : PId) (q : Int) : List CartItem → List CartItem
  | [] => []
  | it :: rest =>
      if pidEq it.productId pid then { it with quantity := it.quantity + q } :: rest
      else it :: addQtyFirst pid q rest

inductive CartError
  | missingProduct
  | productNotFound
  | insufficientStock
deriving DecidableEq

/-- The line item pushed for a product not yet in the cart: snapshots title,
author, discounted-or-list price, image and the add time. -/
def newCartItem (pid : PId) (q : Int) (product : Product) (now : Nat) : CartItem :=
  { productId := pid, quantity := q, title := product.title,
    author := product.author, price := snapshotPrice product,
    imageUrl := product.imageUrl, addedAt := now }

/-- `POST /api/cart` body `{ productId, quantity = 1 }`: the lookup predicate
is `p.id === productId && p.isActive === true`; stock is compared against the
newly requested quantity only; a repeat product merges by incrementing the
stored quantity; totals are recomputed from the items before saving. -/
def addItem (products : List Product) (cart : Cart) (productId? : Option PId)
    (quantity : Int) (now : Nat) : Except CartError Cart :=
  match productId? with
  | none => .error .missingProduct
  | some pid =>
      if !truthy pid then .error .missingProduct
      else
        match products.find? (fun p => pidEq (.num p.id) pid && p.isActive) with
        | none => .error .productNotFound
        | some product =>
            if product.stock < quantity then .error .insufficientStock
            else
              let items :=
                if cart.items.any (fun it => pidEq it.productId pid) then
                  addQtyFirst pid quantity cart.items
                else
                  cart.items ++ [newCartItem pid quantity product now]
              .ok { items := items, total := cartTotal items,
                    totalItems := cartTotalItems items }

/-- The cart document as persisted after the request: `saveCart` runs only on
the success path, every error branch returns before it. -/
def addItemPersisted (products : List Product) (cart : Cart) (productId? : Option PId)
    (quantity : Int) (now : Nat) : Cart :=
  match addItem products cart productId? quantity now with
  | .error _ => cart
  | .ok c => c

theorem pidEq_refl (pid : PId) : pidEq pid pid = true := by
  cases pid <;> simp [pidEq]

theorem addQtyFirst_append_fresh (xs : List CartItem) (it : CartItem) (pid : PId)
    (q : Int) (h : ∀ x ∈ xs, pidEq x.productId pid = false)
    (hit : pidEq it.productId pid = true) :
    addQtyFirst pid q (xs ++ [it]) =
      xs ++ [{ it with quantity := it.quantity + q }] := by
  induction xs with
  | nil => simp [addQtyFirst, hit]
  | cons x rest ih =>
      have hx : pidEq x.productId pid = false := h x (List.mem_cons_self x rest)
      simp only [List.cons_append, addQtyFirst, hx, Bool.false_eq_true, if_false,
        List.cons.injEq, true_and]
      exact ih (fun y hy => h y (List.mem_cons_of_mem x hy))

theorem addItemPersisted_ok {products : List Product} {cart : Cart}
    {productId? : Option PId} {q : Int} {now : Nat} {c : Cart}
    (h : addItem products cart productId? q now = .ok c) :
    addItemPersisted products cart productId? q now = c := by
  unfold addItemPersisted
  rw [h]

/-- C3: on a cart that does not yet hold `pid` (the per-productId uniqueness
invariant), two successive `addItem` calls with the same productId both
succeed and merge into a single line item whose quantity is the sum of the
two requested quantities, and after each successful call `total` and
`totalItems` equal the sums recomputed from the items. -/
theorem C3_double_add_merges (products : List Product) (cart : Cart) (pid : PId)
    (q1 q2 : Int) (now1 now2 : Nat) (prod : Product)
    (hfind : products.find? (fun p => pidEq (.num p.id) pid && p.isActive) = some prod)
    (htruthy : truthy pid = true)
    (hstock1 : q1 ≤ prod.stock) (hstock2 : q2 ≤ prod.stock)
    (hfresh : ∀ it ∈ cart.items, pidEq it.productId pid = false) :
    (addItem products cart (some pid) q1 now1
      = .ok (addItemPersisted products cart (some pid) q1 now1)) ∧
    (addItem products (addItemPersisted products cart (some pid) q1 now1)
        (some pid) q2 now2
      = .ok (addItemPersisted products
          (addItemPersisted products cart (some pid) q1 now1) (some pid) q2 now2)) ∧
    (((addItemPersisted products
        (addItemPersisted products cart (some pid) q1 now1) (some pid) q2
        now2).items.filter (fun it => pidEq it.productId pid)).map CartItem.quantity
      = [q1 + q2]) ∧
    ((addItemPersisted products cart (some pid) q1 now1).total
      = cartTotal (addItemPersisted products cart (some pid) q1 now1).items) ∧
    ((addItemPersisted products cart (some pid) q1 now1).totalItems
      = cartTotalItems (addItemPersisted products cart (some pid) q1 now1).items) ∧
    ((addItemPersisted products
        (addItemPersisted products cart (some pid) q1 now1) (some pid) q2 now2).total
      = cartTotal (addItemPersisted products
          (addItemPersisted products cart (some pid) q1 now1) (some pid) q2 now2).items) ∧
    ((addItemPersisted products
        (addItemPersisted products cart (some pid) q1 now1) (some pid) q2
        now2).totalItems
      = cartTotalItems (addItemPersisted products
          (addItemPersisted products cart (some pid) q1 now1) (some pid) q2
          now2).items) := by
  have hany1 : cart.items.any (fun it => pidEq it.productId pid) = false := by
    rw [List.any_eq_false]
    intro it hit
    simp [hfresh it hit]
  have hnotlt1 : ¬ prod.stock < q1 := not_lt.mpr hstock1
  have hnotlt2 : ¬ prod.stock < q2 := not_lt.mpr hstock2
  have hitem : (newCartItem pid q1 prod now1).productId = pid := rfl
  have h1 : addItem products cart (some pid) q1 now1 = .ok
      { items := cart.items ++ [newCartItem pid q1 prod now1],
        total := cartTotal (cart.items ++ [newCartItem pid q1 prod now1]),
        totalItems := cartTotalItems (cart.items ++ [newCartItem pid q1 prod now1]) } := by
    simp [addItem, htruthy, hfind, hnotlt1, hany1]
  have hany2 :
      ((cart.items ++ [newCartItem pid q1 prod now1]).any
        (fun it => pidEq it.productId pid)) = true := by
    simp [hitem, pidEq_refl]
  have hmerge : addQtyFirst pid q2 (cart.items ++ [newCartItem pid q1 prod now1])
      = cart.items ++ [newCartItem pid (q1 + q2) prod now1] := by
    have := addQtyFirst_append_fresh cart.items (newCartItem pid q1 prod now1)
      pid q2 hfresh (by rw [hitem]; exact pidEq_refl pid)
    simpa [newCartItem] using this
  have h2 : addItem products
      { items := cart.items ++ [newCartItem pid q1 prod now1],
        total := cartTotal (cart.items ++ [newCartItem pid q1 prod now1]),
        totalItems := cartTotalItems (cart.items ++ [newCartItem pid q1 prod now1]) }
      (some pid) q2 now2 = .ok
      { items := cart.items ++ [newCartItem pid (q1 + q2) prod now1],
        total := cartTotal (cart.items ++ [newCartItem pid (q1 + q2) prod now1]),
        totalItems := cartTotalItems (cart.items ++ [newCartItem pid (q1 + q2) prod now1]) } := by
    simp [addItem, htruthy, hfind, hnotlt2, hany2, hmerge]
  have hnil : cart.items.filter (fun it => pidEq it.productId pid) = [] := by
    rw [List.filter_eq_nil_iff]
    intro it hit
    simp [hfresh it hit]
  rw [addItemPersisted_ok h1, addItemPersisted_ok h2]
  refine ⟨h1, h2, ?_, rfl, rfl, rfl, rfl⟩
  simp [List.filter_append, hnil, pidEq_refl, newCartItem]

theorem C3_double_add_merges_witness :
    addItem [sampleActive] emptyCart (some (.num 1)) 2 0
      = .ok (addItemPersisted [sampleActive] emptyCart (some (.num 1)) 2 0) ∧
    (((addItemPersisted [sampleActive]
        (addItemPersisted [sampleActive] emptyCart (some (.num 1)) 2 0)
        (some (.num 1)) 3 1).items.filter
          (fun it => pidEq it.productId (.num 1))).map CartItem.quantity = [2 + 3]) :=
  ⟨(C3_double_add_merges [sampleActive] emptyCart (.num 1) 2 3 0 1 sampleActive
      (by decide) (by decide) (by decide) (by decide)
      (by intro it hit; simp [emptyCart] at hit)).1,
    (C3_double_add_merges [sampleActive] emptyCart (.num 1) 2 3 0 1 sampleActive
      (by decide) (by decide) (by decide) (by decide)
      (by intro it hit; simp [emptyCart] at hit)).2.2.1⟩

/-- C6: `addItem` fails `missingProduct` when no productId is supplied; fails
`productNotFound` when no product matches `p.id === productId && p.isActive`
(which covers an existing-but-inactive product); fails `insufficientStock`
exactly when `product.stock <` the newly requested quantity, never comparing
against the cumulative cart quantity (the call succeeds whenever the stock
covers the new quantity alone, whatever the cart holds); and on every failure
the persisted cart is unchanged. -/
theorem C6_addItem_error_handling (products : List Product) (cart : Cart) (now : Nat) :
    (∀ q, addItem products cart none q now = .error .missingProduct) ∧
    (∀ q pid, truthy pid = true →
      products.find? (fun p => pidEq (.num p.id) pid && p.isActive) = none →
      addItem products cart (some pid) q now = .error .productNotFound) ∧
    (∀ q pid prod, truthy pid = true →
      products.find? (fun p => pidEq (.num p.id) pid && p.isActive) = some prod →
      prod.stock < q →
      addItem products cart (some pid) q now = .error .insufficientStock) ∧
    (∀ q pid prod, truthy pid = true →
      products.find? (fun p => pidEq (.num p.id) pid && p.isActive) = some prod →
      q ≤ prod.stock →
      (addItem products cart (some pid) q now).isOk = true) ∧
    (∀ q productId? e, addItem products cart productId? q now = .error e →
      addItemPersisted products cart productId? q now = cart) := by
  refine ⟨fun q => rfl, ?_, ?_, ?_, ?_⟩
  · intro q pid ht hnone
    simp [addItem, ht, hnone]
  · intro q pid prod ht hsome hlt
    simp [addItem, ht, hsome, hlt]
  · intro q pid prod ht hsome hle
    simp [addItem, ht, hsome, not_lt.mpr hle, Except.isOk, Except.toBool]
  · intro q productId? e he
    unfold addItemPersisted
    rw [he]

theorem C6_addItem_error_handling_witness :
    addItem [sampleActive, sampleInactive] emptyCart none 1 0
        = .error .missingProduct ∧
    addItem [sampleActive, sampleInactive] emptyCart (some (.num 2)) 1 0
        = .error .productNotFound ∧
    addItem [sampleActive, sampleInactive] emptyCart (some (.num 1)) 6 0
        = .error .insufficientStock ∧
    addItemPersisted [sampleActive, sampleInactive] emptyCart (some (.num 2)) 1 0
        = emptyCart := by
  obtain ⟨h1, h2, h3, _, h5⟩ :=
    C6_addItem_error_handling [sampleActive, sampleInactive] emptyCart 0
  exact ⟨h1 1, h2 1 (.num 2) (by decide) (by decide),
    h3 6 (.num 1) sampleActive (by decide) (by decide) (by decide),
    h5 1 (some (.num 2)) .productNotFound
      (h2 1 (.num 2) (by decide) (by decide))⟩

/-- C10: the product lookup and the cart-merge lookup use JS strict equality,
so a decimal-string productId never matches a numeric stored id: with an
active, sufficiently stocked product of numeric id `n` present, the call with
the string form fails `productNotFound` while the numeric call succeeds. -/
theorem C10_no_numeric_coercion (products : List Product) (cart : Cart)
    (n q : Int) (now : Nat) (prod : Product)
    (hfind : products.find? (fun p => pidEq (.num p.id) (.num n) && p.isActive)
      = some prod)
    (hstock : q ≤ prod.stock) (hn : n ≠ 0) :
    (∀ s : String, s ≠ "" →
      addItem products cart (some (.str s)) q now = .error .productNotFound) ∧
    (addItem products cart (some (.num n)) q now).isOk = true ∧
    (∀ (m : Int) (s : String), pidEq (.num m) (.str s) = false) := by
  refine ⟨?_, ?_, fun m s => rfl⟩
  · intro s hs
    have ht : truthy (.str s) = true := by simp [truthy, hs]
    have hnone : products.find? (fun p => pidEq (.num p.id) (.str s) && p.isActive)
        = none := by
      rw [List.find?_eq_none]
      intro p _
      simp [pidEq]
    simp [addItem, ht, hnone]
  · have ht : truthy (.num n) = true := by simp [truthy, hn]
    simp [addItem, ht, hfind, not_lt.mpr hstock, Except.isOk, Except.toBool]

def prodTwo : Product :=
  { id := 2, title := "Modern JavaScript", author := "Doe", price := 25, stock := 10 }

theorem C10_no_numeric_coercion_witness :
    addItem [prodTwo] emptyCart (some (.str "2")) 1 0 = .error .productNotFound ∧
    (addItem [prodTwo] emptyCart (some (.num 2)) 1 0).isOk = true :=
  ⟨(C10_no_numeric_coercion [prodTwo] emptyCart 2 1 0 prodTwo
      (by decide) (by decide) (by decide)).1 "2" (by decide),
    (C10_no_numeric_coercion [prodTwo] emptyCart 2 1 0 prodTwo
      (by decide) (by decide) (by decide)).2.1⟩

/-! ### Admin catalog query — `GET /api/admin/products` (server.js:116-205) -/

/-- The admin sort field.  `title`/`author`/`category` compare with
`localeCompare` (modelled by the string order), `price`/`stock`/`rating`
numerically, and `createdAt` stands for the date-comparison default branch. -/
inductive SortField
  | title
  | author
  | category
  | price
  | stock
  | rating
  | createdAt
deriving DecidableEq

def fieldLe (f : SortField) (a b : Product) : Bool :=
  match f with
  | .title => decide (a.title ≤ b.title)
  | .author => decide (a.author ≤ b.author)
  | .category => decide (a.category ≤ b.category)
  | .price => decide (a.price ≤ b.price)
  | .stock => decide (a.stock ≤ b.stock)
  | .rating => decide (a.rating ≤ b.rating)
  | .createdAt => decide (a.createdAt ≤ b.createdAt)

/-- A stable sort under comparator `order * cmp(a,b)` keeps `a` before `b`
exactly when the comparator is `≤ 0`: field order for `asc`, flipped for the
`desc` default. -/
def sortLe (f : SortField) (asc : Bool) (a b : Product) : Bool :=
  if asc then fieldLe f a b else fieldLe f b a

/-- Status filter, then category substring filter (skipped for `"all"` or an
empty/falsy value), then search on title/author (case-insensitive) or isbn
(case-sensitive, only when the stored isbn is truthy). -/
def adminFiltered (products : List Product) (status : String)
    (category? search? : Option String) : List Product :=
  let ps :=
    if status = "active" then products.filter (fun p => p.isActive)
    else if status = "inactive" then products.filter (fun p => !p.isActive)
    else products
  let ps2 :=
    match category? with
    | some c =>
        if c ≠ "" ∧ c ≠ "all" then
          ps.filter (fun p => jsIncludes (lower p.category) (lower c))
        else ps
    | none => ps
  match search? with
  | some s =>
      if s ≠ "" then
        ps2.filter (fun p =>
          jsIncludes (lower p.title) (lower s) || jsIncludes (lower p.author) (lower s) ||
          (match p.isbn with
           | some i => (i != "") && jsIncludes i s
           | none => false))
      else ps2
  | none => ps2

/-- The filtered collection after the in-place sort. -/
def adminSorted (products : List Product) (status : String)
    (category? search? : Option String) (sortBy : SortField) (sortOrder : String) :
    List Product :=
  (adminFiltered products status category? search?).mergeSort
    (sortLe sortBy (sortOrder == "asc"))

/-- `page = 1` is the destructuring default for a missing query parameter;
a supplied value goes through `parseInt` (`none` = NaN). -/
def pageVal (page? : Option String) : Option Int :=
  match page? with
  | none => some 1
  | some s => parseIntJs s

/-- `limit = 50` is the destructuring default; a supplied value goes through
`parseInt` (`none` = NaN). -/
def limitVal (limit? : Option String) : Option Int :=
  match limit? with
  | none => some 50
  | some s => parseIntJs s

/-- `Math.ceil(totalProducts / limitNum)`: `none` models the non-finite
results (NaN limit, or division by `0`). -/
def jsCeilDiv (t : Nat) (l? : Option Int) : Option Int :=
  match l? with
  | none => none
  | some l => if l = 0 then none else some ⌈(t : ℚ) / (l : ℚ)⌉

structure Pagination where
  currentPage : Option Int
  totalPages : Option Int
  totalProducts : Nat
  productsPerPage : Option Int
  hasNextPage : Bool
  hasPrevPage : Bool
deriving DecidableEq

structure Statistics where
  total : Nat
  active : Nat
  inactive : Nat
  lowStock : Nat
  outOfStock : Nat
deriving DecidableEq

structure AdminResult where
  products : List Product
  pagination : Pagination
  statistics : Statistics
deriving DecidableEq

structure AdminQuery where
  category? : Option String := none
  search? : Option String := none
  status : String := "all"
  page? : Option String := none
  limit? : Option String := none
  sortBy : SortField := .createdAt
  sortOrder : String := "desc"
deriving DecidableEq

/-- `GET /api/admin/products`: filter, sort, slice
`[(page-1)*limit, (page-1)*limit + limit)`, and compute the statistics over
the whole sorted (= filtered) collection, not the page slice. -/
def queryAdmin (products : List Product) (q : AdminQuery) : AdminResult :=
  let sorted := adminSorted products q.status q.category? q.search? q.sortBy q.sortOrder
  let pageNum := pageVal q.page?
  let limitNum := limitVal q.limit?
  let startIndex : Option Int := do pure (((← pageNum) - 1) * (← limitNum))
  let endIndex : Option Int := do pure ((← startIndex) + (← limitNum))
  let totalProducts := sorted.length
  { products := jsSlice sorted startIndex endIndex,
    pagination :=
      { currentPage := pageNum,
        totalPages := jsCeilDiv totalProducts limitNum,
        totalProducts := totalProducts,
        productsPerPage := limitNum,
        hasNextPage := match endIndex with
          | none => false
          | some e => decide (e < (totalProducts : Int)),
        hasPrevPage := match startIndex with
          | none => false
          | some s => decide (0 < s) },
    statistics :=
      { total := totalProducts,
        active := (sorted.filter (fun p => p.isActive)).length,
        inactive := (sorted.filter (fun p => !p.isActive)).length,
        lowStock := (sorted.filter (fun p => decide (p.stock < 10) && decide (p.stock > 0))).length,
        outOfStock := (sorted.filter (fun p => p.stock == 0)).length } }

theorem length_filter_add_length_filter_not {α : Type} (l : List α) (p : α → Bool) :
    (l.filter p).length + (l.filter (fun a => !p a)).length = l.length := by
  induction l with
  | nil => rfl
  | cons a t ih =>
      cases h : p a <;> simp [List.filter_cons, h] <;> omega

/-- C4: for every admin filter combination, the statistics are computed over
the full filtered set: `active + inactive = total`, `lowStock` counts exactly
the filtered products with `0 < stock < 10`, `outOfStock` exactly those with
`stock = 0`, and the statistics do not depend on the pagination window. -/
theorem C4_admin_statistics (products : List Product) (q : AdminQuery) :
    (queryAdmin products q).statistics.active + (queryAdmin products q).statistics.inactive
      = (queryAdmin products q).statistics.total ∧
    (queryAdmin products q).statistics.lowStock
      = (adminFiltered products q.status q.category? q.search?).countP
          (fun p => decide (0 < p.stock) && decide (p.stock < 10)) ∧
    (queryAdmin products q).statistics.outOfStock
      = (adminFiltered products q.status q.category? q.search?).countP
          (fun p => p.stock == 0) ∧
    (∀ page2 limit2 : Option String,
      (queryAdmin products { q with page? := page2, limit? := limit2 }).statistics
        = (queryAdmin products q).statistics) := by
  have hperm : (adminSorted products q.status q.category? q.search? q.sortBy q.sortOrder).Perm
      (adminFiltered products q.status q.category? q.search?) :=
    List.mergeSort_perm _ _
  refine ⟨?_, ?_, ?_, fun page2 limit2 => rfl⟩
  · show ((adminSorted products q.status q.category? q.search? q.sortBy q.sortOrder).filter
        (fun p => p.isActive)).length +
      ((adminSorted products q.status q.category? q.search? q.sortBy q.sortOrder).filter
        (fun p => !p.isActive)).length
      = (adminSorted products q.status q.category? q.search? q.sortBy q.sortOrder).length
    exact length_filter_add_length_filter_not _ _
  · show ((adminSorted products q.status q.category? q.search? q.sortBy q.sortOrder).filter
        (fun p => decide (p.stock < 10) && decide (p.stock > 0))).length = _
    rw [← List.countP_eq_length_filter, hperm.countP_eq]
    exact List.countP_congr (fun x _ => by
      simp only [Bool.and_eq_true, decide_eq_true_eq, gt_iff_lt, and_comm])
  · show ((adminSorted products q.status q.category? q.search? q.sortBy q.sortOrder).filter
        (fun p => p.stock == 0)).length = _
    rw [← List.countP_eq_length_filter, hperm.countP_eq]

theorem C4_admin_statistics_witness :
    (queryAdmin [sampleActive, sampleInactive] {}).statistics.active
        + (queryAdmin [sampleActive, sampleInactive] {}).statistics.inactive
      = (queryAdmin [sampleActive, sampleInactive] {}).statistics.total ∧
    (queryAdmin [sampleActive, sampleInactive] {}).statistics.lowStock
      = (adminFiltered [sampleActive, sampleInactive] "all" none none).countP
          (fun p => decide (0 < p.stock) && decide (p.stock < 10)) :=
  ⟨(C4_admin_statistics [sampleActive, sampleInactive] {}).1,
    (C4_admin_statistics [sampleActive, sampleInactive] {}).2.1⟩

theorem take_min_length {α : Type} (L : List α) (n : Nat) :
    L.take (min n L.length) = L.take n := by
  have h := List.take_take n L.length L
  rw [List.take_length] at h
  exact h.symm

/-- C8 (amended): a missing page defaults to `1` and a missing limit to `50`;
an unparseable (`NaN`) page or limit produces an empty slice, not the
default; for a parsed page `≥ 1` and limit `≥ 1` the returned slice is
exactly the elements of the filtered/sorted set at indices
`[(page-1)·limit, (page-1)·limit + limit)` and `totalPages = ⌈total/limit⌉`. -/
theorem C8_pagination (products : List Product) (q : AdminQuery) :
    pageVal none = some 1 ∧ limitVal none = some 50 ∧
    ((pageVal q.page? = none ∨ limitVal q.limit? = none) →
      (queryAdmin products q).products = []) ∧
    (∀ p l : ℤ, pageVal q.page? = some p → limitVal q.limit? = some l →
      1 ≤ p → 1 ≤ l →
      (queryAdmin products q).products =
        ((adminSorted products q.status q.category? q.search? q.sortBy q.sortOrder).drop
          ((p - 1) * l).toNat).take l.toNat ∧
      (queryAdmin products q).pagination.totalPages =
        some ⌈((adminSorted products q.status q.category? q.search? q.sortBy
          q.sortOrder).length : ℚ) / (l : ℚ)⌉) := by
  refine ⟨rfl, rfl, ?_, ?_⟩
  · intro h
    rcases h with h | h
    · simp [queryAdmin, h, jsSlice, jsIndex]
    · cases hp : pageVal q.page? <;>
        simp [queryAdmin, h, hp, jsSlice, jsIndex]
  · intro p l hp hl hp1 hl1
    have hs : (0:ℤ) ≤ (p - 1) * l := mul_nonneg (by omega) (by omega)
    have he : (0:ℤ) ≤ (p - 1) * l + l := by
      have : (0:ℤ) ≤ l := by omega
      omega
    constructor
    · have hslice : ∀ L : List Product,
          jsSlice L (some ((p - 1) * l)) (some ((p - 1) * l + l)) =
            (L.drop ((p - 1) * l).toNat).take l.toNat := by
        intro L
        simp only [jsSlice, jsIndex]
        rw [if_neg (not_lt.mpr hs), if_neg (not_lt.mpr he), take_min_length]
        rcases le_or_lt ((p - 1) * l).toNat L.length with hle | hlt
        · rw [min_eq_left hle, List.drop_take]
          congr 1
          omega
        · rw [min_eq_right (le_of_lt hlt)]
          rw [List.drop_eq_nil_of_le (le_of_lt hlt),
            List.drop_eq_nil_of_le (by rw [List.length_take]; omega)]
          simp
      show jsSlice _ _ _ = _
      simp only [queryAdmin, hp, hl, Option.bind_eq_bind, Option.some_bind]
      exact hslice _
    · have hl0 : l ≠ 0 := by omega
      simp [queryAdmin, jsCeilDiv, hp, hl, hl0]

def adminQueryW : AdminQuery := { page? := some "2", limit? := some "1" }

theorem C8_pagination_witness :
    (queryAdmin [sampleActive, prodTwo] adminQueryW).products =
      ((adminSorted [sampleActive, prodTwo] "all" none none .createdAt "desc").drop
        (((2:ℤ) - 1) * 1).toNat).take (1:ℤ).toNat ∧
    (queryAdmin [sampleActive, prodTwo] adminQueryW).pagination.totalPages =
      some ⌈((adminSorted [sampleActive, prodTwo] "all" none none .createdAt
        "desc").length : ℚ) / ((1:ℤ) : ℚ)⌉ :=
  (C8_pagination [sampleActive, prodTwo] adminQueryW).2.2.2 2 1
    (by decide) (by decide) (by decide) (by decide)

/-- C8 counterexample: with one product in the collection and `page=abc`,
`parseInt` yields NaN and the handler returns an empty page, while the claim
("invalid page defaults to 1") predicts the first page `[sampleActive]`. -/
theorem C8_counterexample :
    (queryAdmin [sampleActive] { page? := some "abc" }).products = [] ∧
    (queryAdmin [sampleActive] {}).products = [sampleActive] ∧
    ([] : List Product) ≠ [sampleActive] := by
  refine ⟨?_, ?_, by simp⟩
  · have h : pageVal (some "abc") = none := by decide
    simp [queryAdmin, h, jsSlice, jsIndex]
  · have hf : adminFiltered [sampleActive] "all" none none = [sampleActive] := by
      decide
    have hsorted : adminSorted [sampleActive] "all" none none .createdAt "desc"
        = [sampleActive] := by
      unfold adminSorted
      rw [hf, List.mergeSort_singleton]
    simp [queryAdmin, jsSlice, jsIndex, hsorted, pageVal, limitVal]

theorem mergeSort_price_asc_reverse_desc (l : List Product)
    (hd : l.Pairwise (fun a b => a.price ≠ b.price)) :
    l.mergeSort priceAscLe = (l.mergeSort priceDescLe).reverse := by
  have htransA : ∀ a b c : Product,
      priceAscLe a b = true → priceAscLe b c = true → priceAscLe a c = true := by
    intro a b c hab hbc
    simp only [priceAscLe, decide_eq_true_eq] at hab hbc ⊢
    exact le_trans hab hbc
  have htotalA : ∀ a b : Product, (priceAscLe a b || priceAscLe b a) = true := by
    intro a b
    simp only [priceAscLe, Bool.or_eq_true, decide_eq_true_eq]
    exact le_total _ _
  have htransD : ∀ a b c : Product,
      priceDescLe a b = true → priceDescLe b c = true → priceDescLe a c = true := by
    intro a b c hab hbc
    simp only [priceDescLe, decide_eq_true_eq] at hab hbc ⊢
    exact le_trans hbc hab
  have htotalD : ∀ a b : Product, (priceDescLe a b || priceDescLe b a) = true := by
    intro a b
    simp only [priceDescLe, Bool.or_eq_true, decide_eq_true_eq]
    exact le_total _ _
  have hsymm : ∀ {x y : Product}, x.price ≠ y.price → y.price ≠ x.price :=
    fun h e => h e.symm
  have permA := List.mergeSort_perm l priceAscLe
  have permD := List.mergeSort_perm l priceDescLe
  have hdA : (l.mergeSort priceAscLe).Pairwise (fun a b => a.price ≠ b.price) :=
    (List.Perm.pairwise_iff hsymm permA).mpr hd
  have hdD : (l.mergeSort priceDescLe).Pairwise (fun a b => a.price ≠ b.price) :=
    (List.Perm.pairwise_iff hsymm permD).mpr hd
  have strictA : (l.mergeSort priceAscLe).Pairwise (fun a b => a.price < b.price) :=
    ((List.sorted_mergeSort htransA htotalA l).and hdA).imp
      (fun hab => lt_of_le_of_ne (of_decide_eq_true hab.1) hab.2)
  have strictD : (l.mergeSort priceDescLe).Pairwise (fun a b => b.price < a.price) :=
    ((List.sorted_mergeSort htransD htotalD l).and hdD).imp
      (fun hab => lt_of_le_of_ne (of_decide_eq_true hab.1) (fun e => hab.2 e.symm))
  have strictRev : ((l.mergeSort priceDescLe).reverse).Pairwise
      (fun a b => a.price < b.price) :=
    List.pairwise_reverse.mpr strictD
  have hperm : (l.mergeSort priceAscLe).Perm ((l.mergeSort priceDescLe).reverse) :=
    permA.trans (permD.symm.trans (List.reverse_perm _).symm)
  exact @List.eq_of_perm_of_sorted Product (fun a b => a.price < b.price)
    ⟨fun a b h1 h2 => absurd h2 (lt_asymm h1)⟩ _ _ hperm strictA strictRev

/-- C9: on a product set with pairwise distinct prices, the public query
sorted `price_asc` returns exactly the reverse of the public query sorted
`price_desc` (same category/search filters). -/
theorem C9_price_asc_reverse_of_desc (products : List Product)
    (category? search? : Option String)
    (hdist : products.Pairwise (fun a b => a.price ≠ b.price)) :
    (queryPublic products category? search? (some "price_asc")).products =
      ((queryPublic products category? search? (some "price_desc")).products).reverse := by
  have hsub : (publicFiltered products category? search?).Sublist products :=
    (publicFiltered_sublist_filterActive products category? search?).trans
      (List.filter_sublist _)
  have hd : (publicFiltered products category? search?).Pairwise
      (fun a b => a.price ≠ b.price) := List.Pairwise.sublist hsub hdist
  show (publicFiltered products category? search?).mergeSort priceAscLe =
    ((publicFiltered products category? search?).mergeSort priceDescLe).reverse
  exact mergeSort_price_asc_reverse_desc _ hd

theorem C9_price_asc_reverse_of_desc_witness :
    (queryPublic [sampleActive, prodTwo] none none (some "price_asc")).products =
      ((queryPublic [sampleActive, prodTwo] none none (some "price_desc")).products).reverse :=
  C9_price_asc_reverse_of_desc [sampleActive, prodTwo] none none
    (by simp [List.pairwise_cons, sampleActive, prodTwo])

/-! ### Admin login — `POST /api/admin/login` (server.js:309-372) -/

structure User where
  id : Int
  email : String
  password : String
  role : String
  name : String := ""
deriving DecidableEq

inductive LoginResult
  | missingFields
  | adminNotFound
  | wrongPassword
  | token (id : Int) (email role name : String)
deriving DecidableEq

/-- `POST /api/admin/login`: reject missing (falsy) email or password, look
up `u.email === email && u.role === "admin"` (a matching email with a
non-admin role is the same `adminNotFound` failure as an unknown email),
compare the password against the stored hash (`bcrypt.compare`, abstracted
as the `compare` parameter), and only then sign a token. -/
def login (compare : String → String → Bool) (users : List User)
    (email pw : String) : LoginResult :=
  if email = "" ∨ pw = "" then .missingFields
  else
    match users.find? (fun u => u.email == email && u.role == "admin") with
    | none => .adminNotFound
    | some u =>
        if compare pw u.password then .token u.id u.email u.role u.name
        else .wrongPassword

def issuesToken : LoginResult → Bool
  | .token _ _ _ _ => true
  | _ => false

/-- C2: with non-empty credentials and the data-model invariant that emails
are unique, `login` issues a token iff some user has exactly that email,
role `admin`, and a matching password; and when every user with that email
is non-admin the result is the very same `adminNotFound` failure produced
for a non-existent email. -/
theorem C2_login_token_iff (compare : String → String → Bool) (users : List User)
    (email pw : String) (hemail : email ≠ "") (hpw : pw ≠ "")
    (huniq : users.Pairwise (fun a b => a.email ≠ b.email)) :
    (issuesToken (login compare users email pw) = true ↔
      ∃ u ∈ users, u.email = email ∧ u.role = "admin" ∧ compare pw u.password = true) ∧
    ((∀ u ∈ users, u.email = email → u.role ≠ "admin") →
      login compare users email pw = .adminNotFound) := by
  have hguard : ¬ (email = "" ∨ pw = "") := fun h => h.elim hemail hpw
  constructor
  · constructor
    · intro h
      unfold login at h
      rw [if_neg hguard] at h
      cases hfind : users.find? (fun u => u.email == email && u.role == "admin") with
      | none => rw [hfind] at h; simp [issuesToken] at h
      | some u =>
          rw [hfind] at h
          by_cases hcmp : compare pw u.password = true
          · have hmem := List.mem_of_find?_eq_some hfind
            have hpred := List.find?_some hfind
            simp only [Bool.and_eq_true, beq_iff_eq] at hpred
            exact ⟨u, hmem, hpred.1, hpred.2, hcmp⟩
          · simp [issuesToken, hcmp] at h
    · rintro ⟨u, hmem, he, hrole, hcmp⟩
      unfold login
      rw [if_neg hguard]
      cases hfind : users.find? (fun v => v.email == email && v.role == "admin") with
      | none =>
          exfalso
          have := List.find?_eq_none.mp hfind u hmem
          simp [he, hrole] at this
      | some v =>
          have hvmem := List.mem_of_find?_eq_some hfind
          have hvpred := List.find?_some hfind
          simp only [Bool.and_eq_true, beq_iff_eq] at hvpred
          have hsymm2 : Symmetric (fun a b : User => a.email ≠ b.email) :=
            fun _ _ h e => h e.symm
          have hveq : v = u := by
            by_contra hne
            exact (List.Pairwise.forall hsymm2 huniq hvmem hmem hne)
              (hvpred.1.trans he.symm)
          rw [hveq]
          simp [issuesToken, hcmp]
  · intro hnone
    unfold login
    rw [if_neg hguard]
    have hfind : users.find? (fun u => u.email == email && u.role == "admin") = none := by
      rw [List.find?_eq_none]
      intro u hu
      simp only [Bool.and_eq_true, beq_iff_eq, not_and]
      exact fun he hr => hnone u hu he hr
    rw [hfind]

def adminUser : User :=
  { id := 1, email := "admin@bookstore.com", password := "hashedAdm",
    role := "admin", name := "Admin" }

theorem C2_login_token_iff_witness :
    issuesToken (login (fun p h => p == h) [adminUser]
      "admin@bookstore.com" "hashedAdm") = true ∧
    login (fun p h => p == h) [{ adminUser with role := "editor" }]
      "admin@bookstore.com" "hashedAdm" = .adminNotFound :=
  ⟨(C2_login_token_iff (fun p h => p == h) [adminUser] "admin@bookstore.com"
      "hashedAdm" (by decide) (by decide) (List.pairwise_singleton _ _)).1.mpr
      ⟨adminUser, by decide, by decide, by decide, by decide⟩,
    (C2_login_token_iff (fun p h => p == h) [{ adminUser with role := "editor" }]
      "admin@bookstore.com" "hashedAdm" (by decide) (by decide)
      (List.pairwise_singleton _ _)).2 (by decide)⟩

/-! ### Product creation — `POST /api/admin/products` (server.js:210-304) -/

/-- The request body for create.  Fields the embedded `Product` drops
(description, tags, featured, specifications inputs, reviewCount) play no
role in any validation branch and are omitted. -/
structure CreateInput where
  title : Option String := none
  author : Option String := none
  price : Option ℚ := none
  stock : Option ℚ := none
  discountPrice : Option ℚ := none
  isbn : Option String := none
  category : Option String := none
  imageUrl : Option String := none
  rating : Option ℚ := none
deriving DecidableEq

/-- JS falsiness of an optional string field (absent or `""`). -/
def strFalsy : Option String → Bool
  | none => true
  | some s => s == ""

/-- JS falsiness of an optional numeric field (absent, `0`, or `NaN` — the
last not modelled since no claim touches it). -/
def numFalsy : Option ℚ → Bool
  | none => true
  | some x => x == 0

/-- `!req.body[field]` for the four required field names. -/
def missingField (inp : CreateInput) : String → Bool
  | "title" => strFalsy inp.title
  | "author" => strFalsy inp.author
  | "price" => numFalsy inp.price
  | "stock" => numFalsy inp.stock
  | _ => false

/-- `["title", "author", "price", "stock"].filter((field) => !req.body[field])` -/
def requiredMissing (inp : CreateInput) : List String :=
  (["title", "author", "price", "stock"]).filter (missingField inp)

inductive CreateError
  | missingFields (fields : List String)
  | negativeValue
  | invalidDiscount
deriving DecidableEq

/-- `parseInt` applied to a JS number: truncation toward zero. -/
def ratTrunc (q : ℚ) : Int := q.num / (q.den : Int)

/-- The record pushed on success: new id = last element's id + 1 (or 1 on an
empty collection), trimmed strings, `|| default` fallbacks, truthiness-gated
discount, `isActive: true`. -/
def newProductFrom (products : List Product) (inp : CreateInput)
    (price stock : ℚ) (adminId : Int) (now : Nat) : Product :=
  { id := match products.getLast? with
          | some last => last.id + 1
          | none => 1,
    title := (inp.title.getD "").trim,
    author := (inp.author.getD "").trim,
    isbn := some ((inp.isbn.map String.trim).getD ""),
    category := if (inp.category.map String.trim).getD "" ≠ ""
                then (inp.category.map String.trim).getD "" else "General",
    price := price,
    discountPrice := match inp.discountPrice with
                     | some d => if d ≠ 0 then some d else none
                     | none => none,
    imageUrl := if (inp.imageUrl.map String.trim).getD "" ≠ ""
                then (inp.imageUrl.map String.trim).getD ""
                else "/images/default-book.jpg",
    stock := ratTrunc stock,
    isActive := true,
    rating := inp.rating.getD 0,
    createdAt := now,
    updatedAt := now,
    createdBy := adminId }

/-- `POST /api/admin/products`: missing-fields check, then `price < 0`, then
`stock < 0`, then truthy `discountPrice > price`; only afterwards the new
product is appended and the collection persisted. -/
def createProduct (products : List Product) (inp : CreateInput)
    (adminId : Int) (now : Nat) : Except CreateError (List Product) :=
  if requiredMissing inp ≠ [] then .error (.missingFields (requiredMissing inp))
  else if inp.price.getD 0 < 0 then .error .negativeValue
  else if inp.stock.getD 0 < 0 then .error .negativeValue
  else if (match inp.discountPrice with
           | some d => (d != 0) && decide (inp.price.getD 0 < d)
           | none => false) then .error .invalidDiscount
  else .ok (products ++
    [newProductFrom products inp (inp.price.getD 0) (inp.stock.getD 0) adminId now])

/-- The collection as persisted after the request: every validation failure
returns before the `writeFileSync`. -/
def createPersisted (products : List Product) (inp : CreateInput)
    (adminId : Int) (now : Nat) : List Product :=
  match createProduct products inp adminId now with
  | .error _ => products
  | .ok ps => ps

/-- C5: `create` fails `missingFields` naming exactly the falsy required
fields; with all required fields truthy it fails `negativeValue` on a
negative price or stock and `invalidDiscount` on a supplied discount above
the price; and on every failure the persisted collection is unchanged. -/
theorem C5_create_validation (products : List Product) (inp : CreateInput)
    (adminId : Int) (now : Nat) :
    (("title" ∈ requiredMissing inp ↔ strFalsy inp.title = true) ∧
     ("author" ∈ requiredMissing inp ↔ strFalsy inp.author = true) ∧
     ("price" ∈ requiredMissing inp ↔ numFalsy inp.price = true) ∧
     ("stock" ∈ requiredMissing inp ↔ numFalsy inp.stock = true)) ∧
    (requiredMissing inp ≠ [] →
      createProduct products inp adminId now
        = .error (.missingFields (requiredMissing inp))) ∧
    (requiredMissing inp = [] → inp.price.getD 0 < 0 →
      createProduct products inp adminId now = .error .negativeValue) ∧
    (requiredMissing inp = [] → 0 ≤ inp.price.getD 0 → inp.stock.getD 0 < 0 →
      createProduct products inp adminId now = .error .negativeValue) ∧
    (∀ d : ℚ, requiredMissing inp = [] → 0 ≤ inp.price.getD 0 →
      0 ≤ inp.stock.getD 0 → inp.discountPrice = some d → inp.price.getD 0 < d →
      createProduct products inp adminId now = .error .invalidDiscount) ∧
    (∀ e, createProduct products inp adminId now = .error e →
      createPersisted products inp adminId now = products) := by
  have memIff : ∀ f : String, f ∈ ["title", "author", "price", "stock"] →
      (f ∈ requiredMissing inp ↔ missingField inp f = true) := by
    intro f hf
    unfold requiredMissing
    rw [List.mem_filter]
    exact ⟨fun h => h.2, fun h => ⟨hf, h⟩⟩
  refine ⟨⟨?_, ?_, ?_, ?_⟩, ?_, ?_, ?_, ?_, ?_⟩
  · exact (memIff "title" (by decide)).trans (by rw [show missingField inp "title"
      = strFalsy inp.title from rfl])
  · exact (memIff "author" (by decide)).trans (by rw [show missingField inp "author"
      = strFalsy inp.author from rfl])
  · exact (memIff "price" (by decide)).trans (by rw [show missingField inp "price"
      = numFalsy inp.price from rfl])
  · exact (memIff "stock" (by decide)).trans (by rw [show missingField inp "stock"
      = numFalsy inp.stock from rfl])
  · intro hne
    unfold createProduct
    rw [if_pos hne]
  · intro h0 hp
    simp [createProduct, h0, hp]
  · intro h0 hp hs
    simp [createProduct, h0, not_lt.mpr hp, hs]
  · intro d h0 hp hs hd hpd
    have hdne : d ≠ 0 := by
      intro h
      rw [h] at hpd
      exact absurd (lt_of_le_of_lt hp hpd) (lt_irrefl 0)
    simp [createProduct, h0, not_lt.mpr hp, not_lt.mpr hs, hd, hdne, hpd]
  · intro e he
    unfold createPersisted
    rw [he]

def onlyTitle : CreateInput := { title := some "Only Title" }

def negPriceInput : CreateInput :=
  { title := some "T", author := some "A", price := some (-5), stock := some 3 }

def badDiscountInput : CreateInput :=
  { title := some "T", author := some "A", price := some 20, stock := some 5,
    discountPrice := some 30 }

theorem C5_create_validation_witness :
    requiredMissing onlyTitle = ["author", "price", "stock"] ∧
    createProduct [] onlyTitle 1 0
      = .error (.missingFields ["author", "price", "stock"]) ∧
    createProduct [] negPriceInput 1 0 = .error .negativeValue ∧
    createProduct [] badDiscountInput 1 0 = .error .invalidDiscount ∧
    createPersisted [] onlyTitle 1 0 = [] := by
  have hreq : requiredMissing onlyTitle = ["author", "price", "stock"] := by decide
  have hmiss := (C5_create_validation [] onlyTitle 1 0).2.1 (by decide)
  refine ⟨hreq, hreq ▸ hmiss, ?_, ?_, ?_⟩
  · exact (C5_create_validation [] negPriceInput 1 0).2.2.1 (by decide) (by decide)
  · exact (C5_create_validation [] badDiscountInput 1 0).2.2.2.2.1 30
      (by decide) (by decide) (by decide) rfl (by decide)
  · exact (C5_create_validation [] onlyTitle 1 0).2.2.2.2.2
      (.missingFields (requiredMissing onlyTitle)) hmiss

/-! ### Product update — `PUT /api/admin/products/:id` (server.js:811-846) -/

/-- A shallow-merge patch: one optional slot per stored field.  A present
slot overwrites the stored value — including `id`. -/
structure UpdatePatch where
  id : Option Int := none
  title : Option String := none
  author : Option String := none
  isbn : Option (Option String) := none
  category : Option String := none
  price : Option ℚ := none
  discountPrice : Option (Option ℚ) := none
  imageUrl : Option String := none
  stock : Option Int := none
  isActive : Option Bool := none
  rating : Option ℚ := none
  createdAt : Option Nat := none
  createdBy : Option Int := none
deriving DecidableEq

/-- `{ ...product, ...updates, updatedAt: <now> }`: spread order means every
patched field wins over the stored one, and the trailing `updatedAt` literal
always wins over both. -/
def applyPatch (p : Product) (u : UpdatePatch) (now : Nat) : Product :=
  { id := u.id.getD p.id,
    title := u.title.getD p.title,
    author := u.author.getD p.author,
    isbn := u.isbn.getD p.isbn,
    category := u.category.getD p.category,
    price := u.price.getD p.price,
    discountPrice := u.discountPrice.getD p.discountPrice,
    imageUrl := u.imageUrl.getD p.imageUrl,
    stock := u.stock.getD p.stock,
    isActive := u.isActive.getD p.isActive,
    rating := u.rating.getD p.rating,
    createdAt := u.createdAt.getD p.createdAt,
    updatedAt := now,
    createdBy := u.createdBy.getD p.createdBy }

/-- `findIndex((p) => p.id === productId)` + in-place replacement of that
element; `none` is the 404 branch. -/
def updateFirst (pid : Int) (f : Product → Product) : List Product → Option (List Product)
  | [] => none
  | p :: rest =>
      if p.id = pid then some (f p :: rest)
      else (updateFirst pid f rest).map (fun ps => p :: ps)

def updateProduct (products : List Product) (pid : Int) (u : UpdatePatch)
    (now : Nat) : Option (List Product) :=
  updateFirst pid (fun p => applyPatch p u now) products

def prodOne : Product := { id := 1, title := "T", author := "A", price := 10, stock := 5 }

/-- C7 counterexample: the claim says no operation changes the `id` of a
stored product, but `update` with the patch `{ id: 2 }` on product `1`
changes the stored identifier from `1` to `2`. -/
theorem C7_counterexample :
    (updateProduct [prodOne] 1 { id := some 2 } 7).map (List.map Product.id)
      = some [2] ∧ (2 : Int) ≠ 1 := by decide

/-- C7 (amended): provided the patch does not itself carry an `id` field,
`update` preserves every stored identifier (and hence their uniqueness); a
patch containing `id` overwrites the stored identifier. -/
theorem C7_id_immutable_without_id_patch (products : List Product) (pid : Int)
    (u : UpdatePatch) (now : Nat) (ps2 : List Product)
    (hid : u.id = none)
    (h : updateProduct products pid u now = some ps2) :
    ps2.map Product.id = products.map Product.id ∧
    ((products.map Product.id).Nodup → (ps2.map Product.id).Nodup) := by
  have key : ps2.map Product.id = products.map Product.id := by
    induction products generalizing ps2 with
    | nil => simp [updateProduct, updateFirst] at h
    | cons p rest ih =>
        unfold updateProduct updateFirst at h
        by_cases hp : p.id = pid
        · rw [if_pos hp] at h
          injection h with h2
          subst h2
          simp [applyPatch, hid]
        · rw [if_neg hp] at h
          cases hrec : updateFirst pid (fun p => applyPatch p u now) rest with
          | none => rw [hrec] at h; simp at h
          | some ps3 =>
              rw [hrec] at h
              injection h with h2
              subst h2
              have htail : ps3.map Product.id = rest.map Product.id := ih ps3 hrec
              simp [htail]
  exact ⟨key, fun hn => key ▸ hn⟩

theorem C7_id_immutable_without_id_patch_witness :
    ([applyPatch prodOne { title := some "New" } 9].map Product.id
        = [prodOne].map Product.id) ∧
    (([prodOne].map Product.id).Nodup →
      (([applyPatch prodOne { title := some "New" } 9]).map Product.id).Nodup) :=
  C7_id_immutable_without_id_patch [prodOne] 1 { title := some "New" } 9
    [applyPatch prodOne { title := some "New" } 9] rfl (by decide)

end Bookstore
